import Mathlib

/-!
Verification development for the LekaLink cloud cost calculator
(cloud_cost_calculator/app.py).

The monetary arithmetic of the application is embedded over the exact
rationals. Module-level rate loading, the validation gate, the cost
formula, PDF rendering control flow and the email send path are each
translated into executable Lean definitions, and the documented
properties are settled against them.
-/

namespace LekaLink

/-! ## Default rates (app.py lines 24-31) -/

def DEFAULT_VM_RATE : ℚ := 864.35

def DEFAULT_STORAGE_RATE_PER_TB : ℚ := 870.40

def DEFAULT_BANDWIDTH_RATE_PER_MBPS : ℚ := 7.50

/-- The table of the three resource rates used by a computation. -/
structure RateTable where
  vm_rate : ℚ
  storage_rate_per_tb : ℚ
  bandwidth_rate_per_mbps : ℚ
deriving DecidableEq

def defaultRates : RateTable :=
  { vm_rate := DEFAULT_VM_RATE
    storage_rate_per_tb := DEFAULT_STORAGE_RATE_PER_TB
    bandwidth_rate_per_mbps := DEFAULT_BANDWIDTH_RATE_PER_MBPS }

/-! ## Price sheet loading (app.py lines 37-94)

A parsed CSV row carries a description label and the Unit Monthly value
after pandas to_numeric with coercion: a non-numeric cell becomes none
(NaN in the source). -/

structure PriceRow where
  description : String
  unitMonthly : Option ℚ
deriving DecidableEq

def VM_LABEL : String := "Virtual Data Centre(Allocation Resource Pool)"

def STORAGE_LABEL : String := "vStorage - NVME/SSD"

/-- The df.loc label filter followed by the emptiness and NaN checks of
app.py lines 68-69 and 77-78: the first row matching the label, if any,
and its numeric Unit Monthly value, if present. -/
def lookupUnitMonthly (rows : List PriceRow) (label : String) : Option ℚ :=
  match (rows.filter (fun r => r.description = label)).head? with
  | some row => row.unitMonthly
  | none => none

/-- VM rate resolution, app.py lines 68-74. -/
def VM_RATE_of (rows : List PriceRow) : ℚ :=
  match lookupUnitMonthly rows VM_LABEL with
  | some v => v
  | none => DEFAULT_VM_RATE

/-- Storage rate resolution, app.py lines 77-83: the CSV value is per GB
and is multiplied by 1024 to obtain the per-TB rate. -/
def STORAGE_RATE_PER_TB_of (rows : List PriceRow) : ℚ :=
  match lookupUnitMonthly rows STORAGE_LABEL with
  | some v => v * 1024
  | none => DEFAULT_STORAGE_RATE_PER_TB

/-- State of the external price sheet: unavailable covers a missing
assets directory, a missing file, and any parse or column error (all
caught by the except clauses at lines 88-94); table carries the parsed
rows. -/
inductive PriceSource where
  | unavailable
  | table (rows : List PriceRow)
deriving DecidableEq

/-- The module-level rate resolution: on any load failure all rates keep
their initial default values (lines 29-31); on a parsed table the vm and
storage rates are resolved per row with per-rate fallback, while the
bandwidth rate is never read from the sheet and keeps its initial
default. -/
def loadRates : PriceSource → RateTable
  | PriceSource.unavailable => defaultRates
  | PriceSource.table rows =>
      { vm_rate := VM_RATE_of rows
        storage_rate_per_tb := STORAGE_RATE_PER_TB_of rows
        bandwidth_rate_per_mbps := DEFAULT_BANDWIDTH_RATE_PER_MBPS }

/-! ## User submission and the cost engine (app.py lines 383-406) -/

/-- One form submission: the four numeric usage inputs and the five
contact text fields. -/
structure Submission where
  vms : ℚ
  storage : ℚ
  bandwidth : ℚ
  current_cost : ℚ
  company_name : String
  contact_name : String
  job_title : String
  email : String
  phone : String
deriving DecidableEq

/-- app.py line 404. -/
def lekalink_cost (r : RateTable) (s : Submission) : ℚ :=
  s.vms * r.vm_rate + s.storage * r.storage_rate_per_tb +
    s.bandwidth * r.bandwidth_rate_per_mbps

/-- app.py line 405. -/
def monthly_savings (r : RateTable) (s : Submission) : ℚ :=
  s.current_cost - lekalink_cost r s

/-- app.py line 406, with the explicit zero guard on current_cost. -/
def percentage_savings (r : RateTable) (s : Submission) : ℚ :=
  if s.current_cost ≠ 0 then monthly_savings r s / s.current_cost * 100 else 0

/-! ## Input validation (app.py lines 356-373) -/

def COMPANY_MSG : String := "Company Name is required."

def CONTACT_MSG : String := "Contact Name is required."

def JOB_MSG : String := "Job Title is required."

def EMAIL_MSG : String := "Email is required."

def PHONE_MSG : String := "Phone Number is required."

/-- validate_inputs returns whether validation passed together with the
list of error messages it emitted via st.error. The Python function
returns False at the first empty field, so at most one message is ever
emitted per call. -/
def validate_inputs (company_name contact_name job_title email phone : String) :
    Bool × List String :=
  if company_name = "" then (false, [COMPANY_MSG])
  else if contact_name = "" then (false, [CONTACT_MSG])
  else if job_title = "" then (false, [JOB_MSG])
  else if email = "" then (false, [EMAIL_MSG])
  else if phone = "" then (false, [PHONE_MSG])
  else (true, [])

/-! ## Quote data and the PDF renderer (app.py lines 206-315, 421-437) -/

/-- The quote_data dictionary assembled at lines 421-437. -/
structure QuoteData where
  company_name : String
  contact_name : String
  job_title : String
  email : String
  phone : String
  vms : ℚ
  storage : ℚ
  bandwidth : ℚ
  current_cost : ℚ
  lekalink_cost : ℚ
  monthly_savings : ℚ
  percentage_savings : ℚ
  vm_rate : ℚ
  storage_rate_per_tb : ℚ
  bandwidth_rate_per_mbps : ℚ
deriving DecidableEq

/-- Assembly of quote_data from the submission and the active rates,
app.py lines 404-406 and 421-437. -/
def makeQuoteData (r : RateTable) (s : Submission) : QuoteData :=
  { company_name := s.company_name
    contact_name := s.contact_name
    job_title := s.job_title
    email := s.email
    phone := s.phone
    vms := s.vms
    storage := s.storage
    bandwidth := s.bandwidth
    current_cost := s.current_cost
    lekalink_cost := lekalink_cost r s
    monthly_savings := monthly_savings r s
    percentage_savings := percentage_savings r s
    vm_rate := r.vm_rate
    storage_rate_per_tb := r.storage_rate_per_tb
    bandwidth_rate_per_mbps := r.bandwidth_rate_per_mbps }

def inchPt : ℚ := 72

def letterHeight : ℚ := 792

/-- State of the optional logo asset: absent means os.path.exists is
false; readable means the file exists and ImageReader yields the given
pixel dimensions; unreadable means the file exists but ImageReader
raises (caught at line 232). -/
inductive LogoState where
  | absent
  | readable (imgWidth imgHeight : ℚ)
  | unreadable
deriving DecidableEq

def logoFileExists : LogoState → Bool
  | LogoState.absent => false
  | _ => true

/-- The numeric payload of the rendered single-page quote: the three
itemized amounts and the total of lines 283-290, the starting text
position, and which savings block is drawn (lines 301-310). -/
structure PdfQuote where
  hasLogo : Bool
  startY : ℚ
  vmAmount : ℚ
  storageAmount : ℚ
  bandwidthAmount : ℚ
  totalAmount : ℚ
  showsSavings : Bool
deriving DecidableEq

/-- create_pdf, app.py lines 206-315. The local y_position_logo is
assigned only when the logo loads (line 229 reached); line 237 reads it
whenever os.path.exists holds, so an existing but unreadable logo leaves
the local unbound and the function raises UnboundLocalError, modelled as
the error branch. -/
def create_pdf (logo : LogoState) (data : QuoteData) : Except String PdfQuote :=
  let y_position_logo : Option ℚ :=
    match logo with
    | LogoState.readable imgW imgH =>
        let logo_display_width := 3 / 2 * inchPt
        let logo_display_height := logo_display_width * (imgH / imgW)
        some (letterHeight - logo_display_height - 1 / 2 * inchPt)
    | _ => none
  let y0 : Except String ℚ :=
    if logoFileExists logo = false then
      Except.ok (letterHeight - 3 / 2 * inchPt)
    else
      match y_position_logo with
      | some y => Except.ok (y - 1 / 2 * inchPt)
      | none => Except.error "UnboundLocalError: y_position_logo"
  match y0 with
  | Except.error e => Except.error e
  | Except.ok y =>
      Except.ok
        { hasLogo := (match logo with
            | LogoState.readable _ _ => true
            | _ => false)
          startY := y
          vmAmount := data.vms * data.vm_rate
          storageAmount := data.storage * data.storage_rate_per_tb
          bandwidthAmount := data.bandwidth * data.bandwidth_rate_per_mbps
          totalAmount := data.lekalink_cost
          showsSavings := decide (0 ≤ data.monthly_savings) }

/-- Whether create_pdf returns a document rather than raising. -/
def pdfRenders (logo : LogoState) (data : QuoteData) : Bool :=
  match create_pdf logo data with
  | Except.ok _ => true
  | Except.error _ => false

/-! ## Email send (app.py lines 317-353) and the interaction shell
(lines 399-479) -/

/-- Outcome of the SMTP transport: delivered, or some exception raised
during connect, login or sendmail. -/
inductive TransportResult where
  | delivered
  | failed (errMsg : String)
deriving DecidableEq

/-- send_email: every transport exception is caught by the blanket
except clause at line 351 and turned into False. -/
def send_email (t : TransportResult) : Bool :=
  match t with
  | TransportResult.delivered => true
  | TransportResult.failed _ => false

def successMsg : String :=
  "Quote generated and sent to the sales team at adriennek@intellicomms.co.za!"

def failureMsg : String :=
  "Failed to send the quote to the sales team. Please check the console for errors."

/-- Result of one button press: blocked by validation (with the emitted
error messages), crashed by an uncaught exception from create_pdf, or
completed with the quote, the rendered document, whether the download
button was offered, and the final status message. -/
inductive ShellOutcome where
  | blocked (errors : List String)
  | crashed (errMsg : String)
  | completed (quote : QuoteData) (doc : PdfQuote)
      (downloadOffered : Bool) (emailMsg : String)
deriving DecidableEq

/-- The orchestration under the Save me Money button, app.py lines
399-479: validation gate, cost computation, PDF render, download button,
then the email send whose result selects the status message. -/
def run_submission (r : RateTable) (logo : LogoState) (t : TransportResult)
    (s : Submission) : ShellOutcome :=
  let v := validate_inputs s.company_name s.contact_name s.job_title s.email s.phone
  if v.1 = true then
    let qd := makeQuoteData r s
    match create_pdf logo qd with
    | Except.error e => ShellOutcome.crashed e
    | Except.ok doc =>
        ShellOutcome.completed qd doc true
          (if send_email t then successMsg else failureMsg)
  else
    ShellOutcome.blocked v.2

def ShellOutcome.isCrashed : ShellOutcome → Bool
  | ShellOutcome.crashed _ => true
  | _ => false

def ShellOutcome.downloadOffered : ShellOutcome → Bool
  | ShellOutcome.completed _ _ dl _ => dl
  | _ => false

def ShellOutcome.emailMsg : ShellOutcome → Option String
  | ShellOutcome.completed _ _ _ m => some m
  | _ => none

/-! ## Sign helper and concrete inputs -/

/-- Sign of a rational: -1, 0 or 1. -/
def sgn (x : ℚ) : Int :=
  if x < 0 then -1 else if x = 0 then 0 else 1

/-- The worked example of the specification: two VMs, one TB, ten Mbps,
current spend 3000. -/
def ex1 : Submission :=
  { vms := 2
    storage := 1
    bandwidth := 10
    current_cost := 3000
    company_name := "Acme"
    contact_name := "Jo Soap"
    job_title := "CTO"
    email := "jo@acme.example"
    phone := "0123456789" }

/-- A submission with zero current cost but nonzero usage. -/
def exZero : Submission :=
  { ex1 with vms := 1, storage := 0, bandwidth := 0, current_cost := 0 }

def exQuote : QuoteData := makeQuoteData defaultRates ex1

/-! ## Helper lemmas -/

lemma sgn_mul_of_pos (x c : ℚ) (hc : 0 < c) : sgn (x * c) = sgn x := by
  have h1 : x * c < 0 ↔ x < 0 := by
    constructor
    · intro h
      by_contra hx
      push_neg at hx
      nlinarith
    · intro h
      exact mul_neg_of_neg_of_pos h hc
  have h2 : x * c = 0 ↔ x = 0 := by
    rw [mul_eq_zero]
    simp [ne_of_gt hc]
  simp only [sgn, h1, h2]

/-! ## Claims -/

/-- C1: for every usage input and every rate table the estimated cost is
the three-term weighted sum and the monthly savings is the current cost
minus that sum; at the worked example with the default rates the
estimated cost is 2674.10 and the monthly savings 325.90. -/
theorem c1_cost_formula :
    (∀ (r : RateTable) (s : Submission),
        lekalink_cost r s =
          s.vms * r.vm_rate + s.storage * r.storage_rate_per_tb +
            s.bandwidth * r.bandwidth_rate_per_mbps ∧
        monthly_savings r s = s.current_cost - lekalink_cost r s) ∧
    lekalink_cost defaultRates ex1 = 2674.10 ∧
    monthly_savings defaultRates ex1 = 325.90 := by
  refine ⟨fun r s => ⟨rfl, rfl⟩, ?_, ?_⟩ <;>
    norm_num [lekalink_cost, monthly_savings, defaultRates, ex1,
      DEFAULT_VM_RATE, DEFAULT_STORAGE_RATE_PER_TB, DEFAULT_BANDWIDTH_RATE_PER_MBPS]

/-- C2: with a zero current monthly cost the percentage savings is zero
and the monthly savings is the negated estimated cost; with a nonzero
current monthly cost the percentage savings is the savings over the
current cost times one hundred. -/
theorem c2_zero_current_cost (r : RateTable) (s : Submission) :
    (s.current_cost = 0 →
        percentage_savings r s = 0 ∧
        monthly_savings r s = -(lekalink_cost r s)) ∧
    (s.current_cost ≠ 0 →
        percentage_savings r s = monthly_savings r s / s.current_cost * 100) := by
  constructor
  · intro h
    refine ⟨?_, ?_⟩
    · simp [percentage_savings, h]
    · simp [monthly_savings, h]
  · intro h
    simp [percentage_savings, h]

/-- C2 witness at concrete inputs. -/
theorem c2_zero_current_cost_w :
    (percentage_savings defaultRates exZero = 0 ∧
      monthly_savings defaultRates exZero = -(lekalink_cost defaultRates exZero)) ∧
    percentage_savings defaultRates ex1 =
      monthly_savings defaultRates ex1 / ex1.current_cost * 100 :=
  ⟨(c2_zero_current_cost defaultRates exZero).1 (by decide),
   (c2_zero_current_cost defaultRates ex1).2 (by decide)⟩

/-- C3 counterexample: at zero current cost with nonzero usage the
monthly savings is strictly negative while the percentage savings is
zero, so their signs differ. -/
theorem c3_sign_counterexample :
    sgn (percentage_savings defaultRates exZero) ≠
      sgn (monthly_savings defaultRates exZero) := by
  have h1 : percentage_savings defaultRates exZero = 0 := by
    simp [percentage_savings, exZero, ex1]
  have h2 : monthly_savings defaultRates exZero < 0 := by
    norm_num [monthly_savings, lekalink_cost, exZero, ex1, defaultRates,
      DEFAULT_VM_RATE, DEFAULT_STORAGE_RATE_PER_TB, DEFAULT_BANDWIDTH_RATE_PER_MBPS]
  have e1 : sgn (percentage_savings defaultRates exZero) = 0 := by
    rw [h1]
    simp [sgn]
  have e2 : sgn (monthly_savings defaultRates exZero) = -1 := by
    unfold sgn
    rw [if_pos h2]
  rw [e1, e2]
  decide

/-- C3 amended: the sign of monthly savings always matches the sign of
current cost minus estimated cost; the sign of percentage savings
matches the sign of monthly savings whenever the current cost is
strictly positive; at zero current cost the percentage savings is zero
regardless of the sign of monthly savings. -/
theorem c3_sign_correspondence (r : RateTable) (s : Submission) :
    sgn (monthly_savings r s) = sgn (s.current_cost - lekalink_cost r s) ∧
    (0 < s.current_cost →
      sgn (percentage_savings r s) = sgn (monthly_savings r s)) ∧
    (s.current_cost = 0 → percentage_savings r s = 0) := by
  refine ⟨rfl, ?_, ?_⟩
  · intro h
    have hne : s.current_cost ≠ 0 := ne_of_gt h
    have hpos : 0 < 100 / s.current_cost := by positivity
    unfold percentage_savings
    rw [if_pos hne]
    have hrw : monthly_savings r s / s.current_cost * 100 =
        monthly_savings r s * (100 / s.current_cost) := by
      ring
    rw [hrw, sgn_mul_of_pos _ _ hpos]
  · intro h
    simp [percentage_savings, h]

/-- C3 witness at the worked example, where the current cost is strictly
positive. -/
theorem c3_sign_correspondence_w :
    sgn (percentage_savings defaultRates ex1) =
      sgn (monthly_savings defaultRates ex1) :=
  (c3_sign_correspondence defaultRates ex1).2.1 (by norm_num [ex1])

/-- A submission whose company name and contact name are both empty. -/
def exTwoEmpty : Submission :=
  { ex1 with company_name := "", contact_name := "" }

/-- A submission whose phone field alone is empty. -/
def exNoPhone : Submission :=
  { ex1 with phone := "" }

/-- C4 counterexample: with both the company name and the contact name
empty, validation reports only the company name message; the contact
name produces no error report of its own. -/
theorem c4_per_field_counterexample :
    (validate_inputs exTwoEmpty.company_name exTwoEmpty.contact_name
        exTwoEmpty.job_title exTwoEmpty.email exTwoEmpty.phone).2 = [COMPANY_MSG] ∧
    CONTACT_MSG ∉ (validate_inputs exTwoEmpty.company_name exTwoEmpty.contact_name
        exTwoEmpty.job_title exTwoEmpty.email exTwoEmpty.phone).2 := by
  constructor
  · rfl
  · decide

/-- C4 amended: validation succeeds exactly when all five contact fields
are non-empty; when it fails the computation is blocked; only the first
empty field in the order company name, contact name, job title, email,
phone is reported, with exactly its message. -/
theorem c4_validation_gate (r : RateTable) (logo : LogoState)
    (t : TransportResult) (s : Submission) :
    ((validate_inputs s.company_name s.contact_name s.job_title s.email s.phone).1 = true ↔
      (s.company_name ≠ "" ∧ s.contact_name ≠ "" ∧ s.job_title ≠ "" ∧
        s.email ≠ "" ∧ s.phone ≠ "")) ∧
    ((validate_inputs s.company_name s.contact_name s.job_title s.email s.phone).1 = false →
      run_submission r logo t s =
        ShellOutcome.blocked
          (validate_inputs s.company_name s.contact_name s.job_title s.email s.phone).2) ∧
    ((validate_inputs s.company_name s.contact_name s.job_title s.email s.phone).2 =
      if s.company_name = "" then [COMPANY_MSG]
      else if s.contact_name = "" then [CONTACT_MSG]
      else if s.job_title = "" then [JOB_MSG]
      else if s.email = "" then [EMAIL_MSG]
      else if s.phone = "" then [PHONE_MSG]
      else []) := by
  by_cases h1 : s.company_name = "" <;>
    by_cases h2 : s.contact_name = "" <;>
      by_cases h3 : s.job_title = "" <;>
        by_cases h4 : s.email = "" <;>
          by_cases h5 : s.phone = "" <;>
            simp [validate_inputs, run_submission, h1, h2, h3, h4, h5]

/-- C4 witness: a submission missing only the phone number is blocked
with the phone message as its sole report. -/
theorem c4_validation_gate_w :
    run_submission defaultRates LogoState.absent TransportResult.delivered exNoPhone =
      ShellOutcome.blocked
        (validate_inputs exNoPhone.company_name exNoPhone.contact_name
          exNoPhone.job_title exNoPhone.email exNoPhone.phone).2 :=
  (c4_validation_gate defaultRates LogoState.absent TransportResult.delivered
    exNoPhone).2.1 (by decide)

/-- Rows carrying only the vm label. -/
def vRows : List PriceRow :=
  [{ description := VM_LABEL, unitMonthly := some 100 }]

/-- C5: per-rate fallback is independent: with the vm row present and
numeric but the storage row missing or non-numeric, the vm rate is
loaded from the source while only the storage rate takes its default,
and symmetrically. -/
theorem c5_independent_fallback (rows : List PriceRow) (v : ℚ) :
    (lookupUnitMonthly rows VM_LABEL = some v →
      lookupUnitMonthly rows STORAGE_LABEL = none →
        loadRates (PriceSource.table rows) =
          { vm_rate := v
            storage_rate_per_tb := DEFAULT_STORAGE_RATE_PER_TB
            bandwidth_rate_per_mbps := DEFAULT_BANDWIDTH_RATE_PER_MBPS }) ∧
    (lookupUnitMonthly rows STORAGE_LABEL = some v →
      lookupUnitMonthly rows VM_LABEL = none →
        loadRates (PriceSource.table rows) =
          { vm_rate := DEFAULT_VM_RATE
            storage_rate_per_tb := v * 1024
            bandwidth_rate_per_mbps := DEFAULT_BANDWIDTH_RATE_PER_MBPS }) := by
  constructor <;> intro h1 h2 <;>
    simp [loadRates, VM_RATE_of, STORAGE_RATE_PER_TB_of, h1, h2]

/-- C5 witness: a sheet carrying only a numeric vm row loads the vm rate
from the sheet and the storage rate from its default. -/
theorem c5_independent_fallback_w :
    loadRates (PriceSource.table vRows) =
      { vm_rate := 100
        storage_rate_per_tb := DEFAULT_STORAGE_RATE_PER_TB
        bandwidth_rate_per_mbps := DEFAULT_BANDWIDTH_RATE_PER_MBPS } :=
  (c5_independent_fallback vRows 100).1 (by decide) (by decide)

/-- Rows with numeric vm and storage entries and a bandwidth row the
code never looks up. -/
def xRows : List PriceRow :=
  [{ description := VM_LABEL, unitMonthly := some 100 },
   { description := STORAGE_LABEL, unitMonthly := some 2 },
   { description := "Bandwidth", unitMonthly := some 99 }]

/-- C6 counterexample: a sheet that loads successfully and even carries
a bandwidth value of 99 still yields the hard-coded default bandwidth
rate, which differs from 99: the bandwidth rate is not resolved from the
source. -/
theorem c6_bandwidth_counterexample :
    lookupUnitMonthly xRows "Bandwidth" = some 99 ∧
    lookupUnitMonthly xRows VM_LABEL = some 100 ∧
    lookupUnitMonthly xRows STORAGE_LABEL = some 2 ∧
    (loadRates (PriceSource.table xRows)).bandwidth_rate_per_mbps =
      DEFAULT_BANDWIDTH_RATE_PER_MBPS ∧
    DEFAULT_BANDWIDTH_RATE_PER_MBPS ≠ 99 := by
  refine ⟨by decide, by decide, by decide, rfl, ?_⟩
  norm_num [DEFAULT_BANDWIDTH_RATE_PER_MBPS]

/-- C6 amended: on a successful load the vm and storage rates are
resolved from the source, but the bandwidth rate is never read from the
source and always keeps its hard-coded default, load success or not. -/
theorem c6_two_rates_from_source (rows : List PriceRow) (v w : ℚ)
    (hv : lookupUnitMonthly rows VM_LABEL = some v)
    (hw : lookupUnitMonthly rows STORAGE_LABEL = some w) :
    loadRates (PriceSource.table rows) =
      { vm_rate := v
        storage_rate_per_tb := w * 1024
        bandwidth_rate_per_mbps := DEFAULT_BANDWIDTH_RATE_PER_MBPS } ∧
    ∀ src : PriceSource,
      (loadRates src).bandwidth_rate_per_mbps = DEFAULT_BANDWIDTH_RATE_PER_MBPS := by
  constructor
  · simp [loadRates, VM_RATE_of, STORAGE_RATE_PER_TB_of, hv, hw]
  · intro src
    cases src <;> rfl

/-- C6 witness at the concrete sheet. -/
theorem c6_two_rates_from_source_w :
    loadRates (PriceSource.table xRows) =
      { vm_rate := 100
        storage_rate_per_tb := 2 * 1024
        bandwidth_rate_per_mbps := DEFAULT_BANDWIDTH_RATE_PER_MBPS } :=
  (c6_two_rates_from_source xRows 100 2 (by decide) (by decide)).1

/-- Rows with numeric vm and storage entries. -/
def sRows : List PriceRow :=
  [{ description := VM_LABEL, unitMonthly := some 55 },
   { description := STORAGE_LABEL, unitMonthly := some 3 }]

/-- C7: every successfully loaded storage value is stored multiplied by
1024 (per-GB to per-TB), and every successfully loaded vm value is
stored unconverted. -/
theorem c7_storage_unit_conversion (rows : List PriceRow) (v w : ℚ) :
    (lookupUnitMonthly rows STORAGE_LABEL = some v →
      STORAGE_RATE_PER_TB_of rows = v * 1024) ∧
    (lookupUnitMonthly rows VM_LABEL = some w →
      VM_RATE_of rows = w) := by
  constructor <;> intro h <;> simp [STORAGE_RATE_PER_TB_of, VM_RATE_of, h]

/-- C7 witness at a concrete sheet: storage 3 per GB becomes 3072 per
TB, vm 55 stays 55. -/
theorem c7_storage_unit_conversion_w :
    STORAGE_RATE_PER_TB_of sRows = 3 * 1024 ∧ VM_RATE_of sRows = 55 :=
  ⟨(c7_storage_unit_conversion sRows 3 55).1 (by decide),
   (c7_storage_unit_conversion sRows 3 55).2 (by decide)⟩

/-- C8: with the logo file absent the render completes for every quote,
and likewise when the logo loads; but with the logo file present yet
unreadable the whole render fails with an uncaught UnboundLocalError,
because line 237 reads the local y_position_logo that the aborted try
block never assigned. -/
theorem c8_logo_degradation :
    (∀ d : QuoteData, pdfRenders LogoState.absent d = true) ∧
    (∀ (d : QuoteData) (w h : ℚ), pdfRenders (LogoState.readable w h) d = true) ∧
    (∀ d : QuoteData,
      create_pdf LogoState.unreadable d =
        Except.error "UnboundLocalError: y_position_logo") :=
  ⟨fun _ => rfl, fun _ _ _ => rfl, fun _ => rfl⟩

/-- C9: a failed transport makes send_email return False rather than
raise; the shell run still completes without crashing, the PDF download
button is offered, and the user sees the failure message, which differs
from the success message. -/
theorem c9_email_failure_handling (r : RateTable) (logo : LogoState)
    (s : Submission) (emsg : String)
    (hv : (validate_inputs s.company_name s.contact_name s.job_title
      s.email s.phone).1 = true)
    (hl : logo ≠ LogoState.unreadable) :
    send_email (TransportResult.failed emsg) = false ∧
    (run_submission r logo (TransportResult.failed emsg) s).isCrashed = false ∧
    (run_submission r logo (TransportResult.failed emsg) s).downloadOffered = true ∧
    (run_submission r logo (TransportResult.failed emsg) s).emailMsg = some failureMsg ∧
    failureMsg ≠ successMsg := by
  have hpdf : ∃ doc, create_pdf logo (makeQuoteData r s) = Except.ok doc := by
    cases logo with
    | absent => exact ⟨_, rfl⟩
    | readable w h => exact ⟨_, rfl⟩
    | unreadable => exact absurd rfl hl
  obtain ⟨doc, hd⟩ := hpdf
  refine ⟨rfl, ?_, ?_, ?_, by decide⟩ <;>
    simp [run_submission, hv, hd, send_email, ShellOutcome.isCrashed,
      ShellOutcome.downloadOffered, ShellOutcome.emailMsg]

/-- C9 witness at concrete inputs with a refused connection. -/
theorem c9_email_failure_handling_w :
    (run_submission defaultRates LogoState.absent
        (TransportResult.failed "connection refused") ex1).emailMsg =
      some failureMsg :=
  (c9_email_failure_handling defaultRates LogoState.absent ex1
    "connection refused" (by decide) (by decide)).2.2.2.1

/-- C10: whenever the renderer returns a document for the quote data
assembled by the shell, the three itemized per-resource amounts printed
in it sum exactly to the printed total estimated cost, because the
rates carried in the quote data are the ones the cost formula used. -/
theorem c10_itemized_sum (r : RateTable) (s : Submission) (logo : LogoState)
    (doc : PdfQuote)
    (h : create_pdf logo (makeQuoteData r s) = Except.ok doc) :
    doc.vmAmount + doc.storageAmount + doc.bandwidthAmount = doc.totalAmount := by
  cases logo with
  | unreadable => simp [create_pdf, logoFileExists] at h
  | absent =>
      simp [create_pdf, logoFileExists] at h
      subst h
      simp [makeQuoteData, lekalink_cost]
  | readable w hgt =>
      simp [create_pdf, logoFileExists] at h
      subst h
      simp [makeQuoteData, lekalink_cost]

/-- The document rendered for the worked example without a logo. -/
def exDoc : PdfQuote :=
  { hasLogo := false
    startY := letterHeight - 3 / 2 * inchPt
    vmAmount := exQuote.vms * exQuote.vm_rate
    storageAmount := exQuote.storage * exQuote.storage_rate_per_tb
    bandwidthAmount := exQuote.bandwidth * exQuote.bandwidth_rate_per_mbps
    totalAmount := exQuote.lekalink_cost
    showsSavings := decide (0 ≤ exQuote.monthly_savings) }

/-- C10 witness at the worked example. -/
theorem c10_itemized_sum_w :
    exDoc.vmAmount + exDoc.storageAmount + exDoc.bandwidthAmount =
      exDoc.totalAmount :=
  c10_itemized_sum defaultRates ex1 LogoState.absent exDoc rfl

end LekaLink
